import Mathlib

/-!
Shallow embedding of the `dash-tablist` custom element
(src/elements/dash-tab-panel/dash-tab-panel.js).

The DOM subtree under the container is modelled as a flat list of element
records in document order.  Each element carries the attributes the widget
reads or writes (`role`, `id`, `aria-controls`, `aria-selected`,
`aria-hidden`, `aria-labelledby`, `tabIndex`) plus an opaque `key` standing
for DOM node identity.  An absent attribute is `none`; the `id` IDL property
reads as `""` when the attribute is absent, so `idAttr` is a plain string.

Methods that can throw (`_selectTab` via the missing-panel throw, the
labelling loop in `connectedCallback` via the `panelId` ReferenceError and
the `setAttribute`-on-`undefined` TypeError) are modelled with
`Except TabListState TabListState`; the `error` payload is the DOM state at
the moment of the throw, since the preceding in-place mutations persist.
-/

/-- A DOM element as seen by the widget: node identity plus the attributes
the widget reads or writes. -/
structure Elem where
  key : Nat
  role : Option String
  idAttr : String
  ariaControls : Option String
  ariaSelected : Option String
  ariaHidden : Option String
  ariaLabelledBy : Option String
  tabIndex : Int
  deriving Repr, DecidableEq

/-- The `dash-tablist` container: its descendant elements in document order,
its own `role` attribute, and whether the keydown/click listeners are
registered. -/
structure TabListState where
  children : List Elem
  roleAttr : Option String
  listeners : Bool
  deriving Repr, DecidableEq

/-- `[role=tab]` selector predicate. -/
def isTab (e : Elem) : Bool := e.role == some "tab"

/-- `[role=tabpanel]` selector predicate. -/
def isPanel (e : Elem) : Bool := e.role == some "tabpanel"

/-- `_allTabs`: `Array.from(this.querySelectorAll('[role=tab]'))`. -/
def allTabs (s : TabListState) : List Elem := s.children.filter isTab

/-- `_allPanels`: `Array.from(this.querySelectorAll('[role=tabpanel]'))`. -/
def allPanels (s : TabListState) : List Elem := s.children.filter isPanel

/-- `_panelForTab`: read the tab's `aria-controls` and return the first
panel whose `id` strictly equals it.  `getAttribute` yields `null` when the
attribute is absent, and `panel.id === null` is false for every panel. -/
def panelForTab (s : TabListState) (tab : Elem) : Option Elem :=
  match tab.ariaControls with
  | none => none
  | some pid => (allPanels s).find? (fun p => p.idAttr == pid)

/-- Dereference a node-identity key to the element currently in the tree. -/
def getByKey (s : TabListState) (k : Nat) : Option Elem :=
  s.children.find? (fun e => e.key == k)

/-- `_panelForTab` applied to the element denoted by key `k`. -/
def panelForKey (s : TabListState) (k : Nat) : Option Elem :=
  (getByKey s k).bind (fun t => panelForTab s t)

/-- The per-element effect of `reset`: tabs get `tabIndex = -1` and
`aria-selected="false"`, panels get `aria-hidden="true"`. -/
def resetElem (e : Elem) : Elem :=
  if isTab e then { e with tabIndex := -1, ariaSelected := some "false" }
  else if isPanel e then { e with ariaHidden := some "true" }
  else e

/-- `reset`: mark every tab deselected and unfocusable, hide every panel. -/
def reset (s : TabListState) : TabListState :=
  { s with children := s.children.map resetElem }

/-- In-place `setAttribute` on the element with node identity `k`. -/
def updKey (c : List Elem) (k : Nat) (f : Elem → Elem) : List Elem :=
  c.map (fun e => if e.key == k then f e else e)

/-- `newPanel.setAttribute('aria-hidden', 'false')`. -/
def showPanel (e : Elem) : Elem := { e with ariaHidden := some "false" }

/-- `newTab.setAttribute('aria-selected', 'true'); newTab.tabIndex = 0`. -/
def markSelected (e : Elem) : Elem :=
  { e with ariaSelected := some "true", tabIndex := 0 }

/-- `_selectTab(newTab)` where `k` is `newTab`'s node identity: reset
everything first, then look the panel up; if the lookup fails the method
throws (the post-`reset` state persists), otherwise unhide the panel and
mark the tab selected and focusable. -/
def selectTab (s : TabListState) (k : Nat) : Except TabListState TabListState :=
  let s1 := reset s
  match panelForKey s1 k with
  | none => Except.error s1
  | some p =>
      let s2 : TabListState := { s1 with children := updKey s1.children p.key showPanel }
      Except.ok { s2 with children := updKey s2.children k markSelected }

/-- `this._selectTab(x)` for an `x` that may be `undefined` (as produced by
out-of-range array indexing): `reset` still runs inside `_selectTab` before
`undefined.getAttribute` throws. -/
def selectTabOpt (s : TabListState) (t : Option Elem) : Except TabListState TabListState :=
  match t with
  | none => Except.error (reset s)
  | some e => selectTab s e.key

/-- JavaScript `Array.prototype.findIndex`: index of the first match, `-1`
when there is none. -/
def findIndexJs (p : Elem → Bool) : List Elem → Int
  | [] => -1
  | a :: l =>
      if p a then 0
      else if findIndexJs p l = -1 then -1 else findIndexJs p l + 1

/-- `tab.getAttribute('aria-selected') === 'true'`. -/
def isSelectedTab (t : Elem) : Bool := t.ariaSelected == some "true"

/-- `panel.getAttribute('aria-hidden') === 'false'`, i.e. the panel is the
unhidden one. -/
def isVisiblePanel (p : Elem) : Bool := p.ariaHidden == some "false"

/-- JavaScript array indexing with a possibly negative number:
`arr[i]` is `undefined` for `i < 0` or `i ≥ length`. -/
def jsIndex (l : List Elem) (i : Int) : Option Elem :=
  if 0 ≤ i then l[i.toNat]? else none

/-- `_prevTab`: `tabs[(newIdx + tabs.length) % tabs.length]` where
`newIdx = tabs.findIndex(selected) - 1` and `%` is JavaScript's truncating
remainder. -/
def prevTab (s : TabListState) : Option Elem :=
  let tabs := allTabs s
  let newIdx : Int := findIndexJs isSelectedTab tabs - 1
  jsIndex tabs (Int.tmod (newIdx + tabs.length) tabs.length)

/-- `_nextTab`: `tabs[newIdx % tabs.length]` where
`newIdx = tabs.findIndex(selected) + 1`. -/
def nextTab (s : TabListState) : Option Elem :=
  let tabs := allTabs s
  let newIdx : Int := findIndexJs isSelectedTab tabs + 1
  jsIndex tabs (Int.tmod newIdx tabs.length)

/-- The five transitions of the selection state machine, as dispatched by
`_onKeyDown`/`_onClick`. -/
def selectExplicit (s : TabListState) (k : Nat) : Except TabListState TabListState :=
  selectTab s k

/-- `this._selectTab(this._prevTab())`. -/
def selectPrevious (s : TabListState) : Except TabListState TabListState :=
  selectTabOpt s (prevTab s)

/-- `this._selectTab(this._nextTab())`. -/
def selectNext (s : TabListState) : Except TabListState TabListState :=
  selectTabOpt s (nextTab s)

/-- `this._selectTab(this._allTabs()[0])` (HOME). -/
def selectFirst (s : TabListState) : Except TabListState TabListState :=
  selectTabOpt s (allTabs s)[0]?

/-- `this._selectTab(tabs[tabs.length - 1])` (END). -/
def selectLast (s : TabListState) : Except TabListState TabListState :=
  selectTabOpt s (allTabs s)[(allTabs s).length - 1]?

/-- A keyboard event as the handler reads it. -/
structure KeyEvent where
  keyCode : Nat
  targetKey : Nat
  targetRole : Option String
  altKey : Bool
  deriving Repr, DecidableEq

instance : DecidableEq (Except TabListState TabListState) := fun a b =>
  match a, b with
  | Except.error x, Except.error y =>
      if h : x = y then isTrue (by rw [h]) else isFalse (by intro hc; cases hc; exact h rfl)
  | Except.ok x, Except.ok y =>
      if h : x = y then isTrue (by rw [h]) else isFalse (by intro hc; cases hc; exact h rfl)
  | Except.error _, Except.ok _ => isFalse (by intro hc; cases hc)
  | Except.ok _, Except.error _ => isFalse (by intro hc; cases hc)

/-- Result of a keydown dispatch: whether `preventDefault()` ran, and the
resulting DOM state (`error` = an exception escaped the handler). -/
structure KeyResult where
  defaultPrevented : Bool
  result : Except TabListState TabListState
  deriving Repr, DecidableEq

def KEYCODE_DOWN : Nat := 40
def KEYCODE_LEFT : Nat := 37
def KEYCODE_RIGHT : Nat := 39
def KEYCODE_UP : Nat := 38
def KEYCODE_HOME : Nat := 36
def KEYCODE_END : Nat := 35

/-- `_onKeyDown`.  Note: the source calls `event.preventDefault()`
unconditionally as its first statement, before the target-role check, the
altKey check and the keycode switch, so every branch has
`defaultPrevented = true`. -/
def onKeyDown (s : TabListState) (ev : KeyEvent) : KeyResult :=
  if ev.targetRole ≠ some "tab" then { defaultPrevented := true, result := Except.ok s }
  else if ev.altKey then { defaultPrevented := true, result := Except.ok s }
  else if ev.keyCode == KEYCODE_LEFT || ev.keyCode == KEYCODE_UP then
    { defaultPrevented := true, result := selectPrevious s }
  else if ev.keyCode == KEYCODE_RIGHT || ev.keyCode == KEYCODE_DOWN then
    { defaultPrevented := true, result := selectNext s }
  else if ev.keyCode == KEYCODE_HOME then
    { defaultPrevented := true, result := selectFirst s }
  else if ev.keyCode == KEYCODE_END then
    { defaultPrevented := true, result := selectLast s }
  else { defaultPrevented := true, result := Except.ok s }

/-- A click event as the handler reads it. -/
structure ClickEvent where
  targetKey : Nat
  targetRole : Option String
  deriving Repr, DecidableEq

/-- JavaScript truthiness of a `getAttribute` result: `null` and the empty
string are falsy, any other string is truthy. -/
def jsTruthyAttr : Option String → Bool
  | none => false
  | some v => !(v == "")

/-- `_onClick`.  The source tests
`!event.target.getAttribute('role', 'tab')` — `getAttribute` ignores its
second argument, so the guard is mere truthiness of the target's `role`
attribute, not equality with `"tab"`. -/
def onClick (s : TabListState) (ev : ClickEvent) : Except TabListState TabListState :=
  if jsTruthyAttr ev.targetRole then selectTab s ev.targetKey
  else Except.ok s

/-- The child reordering done at connect time: each tab is `appendChild`ed
(moved to the end) in order, then each panel, leaving
non-tab-non-panel children, then all tabs, then all panels. -/
def reorderChildren (c : List Elem) : List Elem :=
  c.filter (fun e => !(isTab e) && !(isPanel e)) ++ c.filter isTab ++ c.filter isPanel

/-- One iteration of the labelling loop.  A tab with an `id` labels its
panel; `this._panelForTab(tab)` being `undefined` makes the `setAttribute`
call throw a TypeError.  A tab without an `id` reaches the `console.warn`
whose template string reads the undefined variable `panelId`, which throws
a ReferenceError. -/
def labelStep (s : TabListState) (tab : Elem) : Except TabListState TabListState :=
  if tab.idAttr == "" then Except.error s
  else
    match panelForTab s tab with
    | none => Except.error s
    | some p =>
        let c2 := updKey s.children p.key (fun e => { e with ariaLabelledBy := some tab.idAttr })
        Except.ok { s with children := c2 }

/-- `tabs.forEach` over the labelling loop; the first throw aborts
`connectedCallback`. -/
def labelAll (s : TabListState) : List Elem → Except TabListState TabListState
  | [] => Except.ok s
  | t :: rest =>
      match labelStep s t with
      | Except.error e => Except.error e
      | Except.ok s2 => labelAll s2 rest

/-- `tabs.find(tab => tab.getAttribute('aria-selected') === 'true') || tabs[0]`. -/
def initialSelectedTab (tabs : List Elem) : Option Elem :=
  match tabs.find? isSelectedTab with
  | some t => some t
  | none => tabs[0]?

/-- The tail of `connectedCallback` once at least one tab was discovered:
run the labelling loop over the already-reordered state `s1`, then select
the initially selected tab (first marked, else the first tab `t0`). -/
def connectedFinish (s1 : TabListState) (tabs : List Elem) (t0 : Elem) :
    Except TabListState TabListState :=
  match labelAll s1 tabs with
  | Except.error e => Except.error e
  | Except.ok s2 =>
      let sel := (tabs.find? isSelectedTab).getD t0
      selectTab s2 sel.key

/-- `connectedCallback`: register both listeners, set `role=tablist`, and
abort if there are no tabs; otherwise regroup children, run the labelling
loop, and select the initially selected tab (first marked, else first). -/
def connectedCallback (s : TabListState) : Except TabListState TabListState :=
  let s0 : TabListState := { s with listeners := true, roleAttr := some "tablist" }
  let tabs := allTabs s0
  match tabs with
  | [] => Except.ok s0
  | t0 :: _ =>
      let s1 : TabListState := { s0 with children := reorderChildren s0.children }
      connectedFinish s1 tabs t0

/-- `disconnectedCallback`: remove both listeners. -/
def disconnectedCallback (s : TabListState) : TabListState :=
  { s with listeners := false }

/-- Exactly-one-selected count over the tabs. -/
def countSelected (s : TabListState) : Nat :=
  ((allTabs s).filter isSelectedTab).length

/-- Exactly-one-visible count over the panels. -/
def countVisible (s : TabListState) : Nat :=
  ((allPanels s).filter isVisiblePanel).length

/-- The exactly-one invariant: one selected tab, one unhidden panel, and
the unhidden panel is the one the selected tab's `aria-controls` resolves
to. -/
def ariaInvariant (s : TabListState) : Bool :=
  countSelected s == 1 && countVisible s == 1 &&
    (match (allTabs s).find? isSelectedTab, (allPanels s).find? isVisiblePanel with
     | some t, some p => panelForTab s t == some p
     | _, _ => false)

/-- Distinct node identities: any real DOM tree satisfies this. -/
def keysNodup (s : TabListState) : Prop := (s.children.map Elem.key).Nodup

instance (s : TabListState) : Decidable (keysNodup s) :=
  List.nodupDecidable (s.children.map Elem.key)

/-- Every tab's `aria-controls` resolves to an existing panel. -/
def wellPaired (s : TabListState) : Bool :=
  (allTabs s).all (fun t => (panelForTab s t).isSome)

/-- `k` is the node identity of one of the container's tabs. -/
def isTabKey (s : TabListState) (k : Nat) : Bool :=
  (allTabs s).any (fun t => t.key == k)

/-- The net per-element effect of a successful `_selectTab` call on the tab
with key `k` whose resolved panel has key `pk`: proved below
(`selectTab_eq_applySel`) to be what `reset` followed by the two
`setAttribute` writes amounts to. -/
def applySel (k pk : Nat) (e : Elem) : Elem :=
  if isTab e then
    (if e.key == k then markSelected (resetElem e) else resetElem e)
  else if isPanel e then
    (if e.key == pk then showPanel (resetElem e) else resetElem e)
  else e

/-- Forget `aria-labelledby`; the labelling loop changes nothing else. -/
def noLbl (e : Elem) : Elem := { e with ariaLabelledBy := none }

/-- Host-markup tab: `role=tab`, optional id (`""` = absent), an
`aria-controls` value, and an optional pre-set `aria-selected`. -/
def mkTab (k : Nat) (i cv : String) (sel : Option String) : Elem :=
  { key := k, role := some "tab", idAttr := i, ariaControls := some cv,
    ariaSelected := sel, ariaHidden := none, ariaLabelledBy := none, tabIndex := -1 }

/-- Host-markup panel: `role=tabpanel` and an id. -/
def mkPanel (k : Nat) (i : String) : Elem :=
  { key := k, role := some "tabpanel", idAttr := i, ariaControls := none,
    ariaSelected := none, ariaHidden := none, ariaLabelledBy := none, tabIndex := -1 }

/-- Two tabs, two matching panels, first tab pre-marked selected. -/
def wC1 : TabListState :=
  { children := [mkTab 0 "t1" "p1" (some "true"), mkTab 1 "t2" "p2" none,
                 mkPanel 2 "p1", mkPanel 3 "p2"],
    roleAttr := none, listeners := false }

/-- The state `selectNext wC1` produces. -/
def wC1next : TabListState :=
  { children := [mkTab 0 "t1" "p1" (some "false"),
                 { mkTab 1 "t2" "p2" (some "true") with tabIndex := 0 },
                 { mkPanel 2 "p1" with ariaHidden := some "true" },
                 { mkPanel 3 "p2" with ariaHidden := some "false" }],
    roleAttr := none, listeners := false }

/-- A selected tab whose `aria-controls` names no panel id, next to an
unhidden panel: selecting it must fail, and `reset` visibly mutates. -/
def cexC2 : TabListState :=
  { children := [mkTab 0 "t1" "missing-id" (some "true"),
                 { mkPanel 1 "p1" with ariaHidden := some "false" }],
    roleAttr := some "tablist", listeners := true }

/-- Same shape as `cexC2`, used for the amended-claim witness. -/
def wC2 : TabListState :=
  { children := [mkTab 4 "t1" "nope" (some "true"),
                 { mkPanel 5 "p1" with ariaHidden := some "false" }],
    roleAttr := some "tablist", listeners := true }

/-- The dangling tab inside `wC2`. -/
def wC2tab : Elem := mkTab 4 "t1" "nope" (some "true")

/-- Three tabs with matching panels, first tab selected. -/
def wC3 : TabListState :=
  { children := [mkTab 0 "t1" "p1" (some "true"), mkTab 1 "t2" "p2" none,
                 mkTab 2 "t3" "p3" none, mkPanel 3 "p1", mkPanel 4 "p2", mkPanel 5 "p3"],
    roleAttr := some "tablist", listeners := true }

/-- A container whose only tab has no `id` (plus its matching panel). -/
def exC4 : TabListState :=
  { children := [mkTab 0 "" "p1" none, mkPanel 1 "p1"],
    roleAttr := none, listeners := false }

/-- A well-formed selected state; clicking its panel should be a no-op per
the claim. -/
def exC5 : TabListState :=
  { children := [{ mkTab 0 "t1" "p1" (some "true") with tabIndex := 0 },
                 { mkPanel 1 "p1" with ariaHidden := some "false" }],
    roleAttr := some "tablist", listeners := true }

/-- A well-formed selected state for the keydown observations. -/
def exC6 : TabListState :=
  { children := [{ mkTab 0 "t1" "p1" (some "true") with tabIndex := 0 },
                 { mkPanel 1 "p1" with ariaHidden := some "false" }],
    roleAttr := some "tablist", listeners := true }

/-- A container with a panel but zero tabs, listeners not yet attached. -/
def cexC7 : TabListState :=
  { children := [mkPanel 1 "p1"], roleAttr := none, listeners := false }

/-- Interleaved markup whose second tab is pre-marked selected. -/
def wC8 : TabListState :=
  { children := [mkTab 0 "t1" "p1" none, mkPanel 1 "p1",
                 mkTab 2 "t2" "p2" (some "true"), mkPanel 3 "p2"],
    roleAttr := none, listeners := false }

/-- Two panels sharing the id `"dup"`, in the two orders. -/
def ex9a : TabListState :=
  { children := [mkTab 0 "t" "dup" none, mkPanel 1 "dup", mkPanel 2 "dup"],
    roleAttr := some "tablist", listeners := true }

/-- `ex9a` with its two panels transposed: same tabs, same panel ids. -/
def ex9b : TabListState :=
  { children := [mkTab 0 "t" "dup" none, mkPanel 2 "dup", mkPanel 1 "dup"],
    roleAttr := some "tablist", listeners := true }

/-- The tab controlling `"dup"`. -/
def ex9t : Elem := mkTab 0 "t" "dup" none

/-- Distinct-id panels, original order. -/
def wC9a : TabListState :=
  { children := [mkTab 0 "t" "pb" none, mkPanel 1 "pa", mkPanel 2 "pb"],
    roleAttr := some "tablist", listeners := true }

/-- Distinct-id panels, transposed. -/
def wC9b : TabListState :=
  { children := [mkTab 0 "t" "pb" none, mkPanel 2 "pb", mkPanel 1 "pa"],
    roleAttr := some "tablist", listeners := true }

/-- The tab used in the order-independence witness. -/
def wC9t : Elem := mkTab 0 "t" "pb" none

/-- The state `connectedCallback wC8` produces. -/
def wC8res : TabListState :=
  { children := [mkTab 0 "t1" "p1" (some "false"),
                 { mkTab 2 "t2" "p2" (some "true") with tabIndex := 0 },
                 { mkPanel 1 "p1" with ariaHidden := some "true", ariaLabelledBy := some "t1" },
                 { mkPanel 3 "p2" with ariaHidden := some "false", ariaLabelledBy := some "t2" }],
    roleAttr := some "tablist", listeners := true }

/-- Two tabs, two panels, second tab to be selected twice. -/
def wC10 : TabListState :=
  { children := [mkTab 0 "t1" "p1" (some "true"), mkTab 1 "t2" "p2" none,
                 mkPanel 2 "p1", mkPanel 3 "p2"],
    roleAttr := some "tablist", listeners := true }

/-- The state `selectTab wC10 1` produces. -/
def wC10res : TabListState :=
  { children := [mkTab 0 "t1" "p1" (some "false"),
                 { mkTab 1 "t2" "p2" (some "true") with tabIndex := 0 },
                 { mkPanel 2 "p1" with ariaHidden := some "true" },
                 { mkPanel 3 "p2" with ariaHidden := some "false" }],
    roleAttr := some "tablist", listeners := true }

/-! ### Elementary facts about the per-element operations -/

theorem markSelected_key (e : Elem) : (markSelected e).key = e.key := rfl

theorem markSelected_role (e : Elem) : (markSelected e).role = e.role := rfl

theorem markSelected_idAttr (e : Elem) : (markSelected e).idAttr = e.idAttr := rfl

theorem markSelected_controls (e : Elem) : (markSelected e).ariaControls = e.ariaControls := rfl

theorem markSelected_hidden (e : Elem) : (markSelected e).ariaHidden = e.ariaHidden := rfl

theorem markSelected_selected (e : Elem) : (markSelected e).ariaSelected = some "true" := rfl

theorem showPanel_key (e : Elem) : (showPanel e).key = e.key := rfl

theorem showPanel_role (e : Elem) : (showPanel e).role = e.role := rfl

theorem showPanel_idAttr (e : Elem) : (showPanel e).idAttr = e.idAttr := rfl

theorem showPanel_controls (e : Elem) : (showPanel e).ariaControls = e.ariaControls := rfl

theorem showPanel_selected (e : Elem) : (showPanel e).ariaSelected = e.ariaSelected := rfl

theorem showPanel_hidden (e : Elem) : (showPanel e).ariaHidden = some "false" := rfl

theorem resetElem_key (e : Elem) : (resetElem e).key = e.key := by
  unfold resetElem; split <;> try split
  all_goals rfl

theorem resetElem_role (e : Elem) : (resetElem e).role = e.role := by
  unfold resetElem; split <;> try split
  all_goals rfl

theorem resetElem_idAttr (e : Elem) : (resetElem e).idAttr = e.idAttr := by
  unfold resetElem; split <;> try split
  all_goals rfl

theorem resetElem_controls (e : Elem) : (resetElem e).ariaControls = e.ariaControls := by
  unfold resetElem; split <;> try split
  all_goals rfl

theorem resetElem_selected_of_tab (e : Elem) (h : isTab e = true) :
    (resetElem e).ariaSelected = some "false" := by
  unfold resetElem; rw [if_pos h]

theorem resetElem_hidden_of_panel (e : Elem) (h : isPanel e = true) :
    (resetElem e).ariaHidden = some "true" := by
  unfold resetElem
  have hnt : ¬ isTab e = true := by
    simp only [isPanel, beq_iff_eq] at h
    simp [isTab, h]
  rw [if_neg hnt, if_pos h]

theorem isTab_not_isPanel {e : Elem} (h : isTab e = true) : isPanel e = false := by
  simp only [isTab, beq_iff_eq] at h
  simp [isPanel, h]

theorem isPanel_not_isTab {e : Elem} (h : isPanel e = true) : isTab e = false := by
  simp only [isPanel, beq_iff_eq] at h
  simp [isTab, h]

theorem isTab_resetElem (e : Elem) : isTab (resetElem e) = isTab e := by
  simp [isTab, resetElem_role]

theorem isPanel_resetElem (e : Elem) : isPanel (resetElem e) = isPanel e := by
  simp [isPanel, resetElem_role]

/-! ### Generic list helpers -/

theorem findCongr {p q : Elem → Bool} :
    ∀ (l : List Elem), (∀ a ∈ l, p a = q a) → l.find? p = l.find? q
  | [], _ => rfl
  | a :: l, h => by
    have ha : p a = q a := h a (List.mem_cons_self a l)
    cases hqa : q a with
    | true =>
        rw [List.find?_cons_of_pos l (ha.trans hqa), List.find?_cons_of_pos l hqa]
    | false =>
        rw [List.find?_cons_of_neg l (by rw [ha, hqa]; exact Bool.false_ne_true),
            List.find?_cons_of_neg l (by rw [hqa]; exact Bool.false_ne_true)]
        exact findCongr l (fun b hb => h b (List.mem_cons_of_mem a hb))

theorem keyInj (s : TabListState) (hnd : keysNodup s) {a b : Elem}
    (ha : a ∈ s.children) (hb : b ∈ s.children) (hk : a.key = b.key) : a = b :=
  List.inj_on_of_nodup_map hnd ha hb hk

theorem findKeyNodup (l : List Elem) (hnd : (l.map Elem.key).Nodup) (t : Elem) (ht : t ∈ l) :
    l.find? (fun e => e.key == t.key) = some t := by
  have hs : (l.find? (fun e => e.key == t.key)).isSome :=
    List.find?_isSome.mpr ⟨t, ht, by simp⟩
  cases hf : l.find? (fun e => e.key == t.key) with
  | none => rw [hf] at hs; simp at hs
  | some u =>
      have hu : u.key = t.key := by simpa using List.find?_some hf
      have hmem := List.mem_of_find?_eq_some hf
      rw [List.inj_on_of_nodup_map hnd hmem ht hu]

theorem filterKeyNodup :
    ∀ (l : List Elem), (l.map Elem.key).Nodup → ∀ (k : Nat) (t : Elem), t ∈ l → t.key = k →
      l.filter (fun e => e.key == k) = [t]
  | [], _, _, t, ht, _ => by cases ht
  | a :: l, hnd, k, t, ht, htk => by
    rw [List.map_cons, List.nodup_cons] at hnd
    rcases List.mem_cons.mp ht with h | hmem
    · have hak : a.key = k := by rw [← h]; exact htk
      have hrest : l.filter (fun e => e.key == k) = [] := by
        rw [List.filter_eq_nil_iff]
        intro b hb hkb
        apply hnd.1
        rw [List.mem_map]
        refine ⟨b, hb, ?_⟩
        have hbk : b.key = k := by simpa using hkb
        exact hbk.trans hak.symm
      simp only [List.filter_cons, hak, beq_self_eq_true, if_true, hrest]
      rw [h]
    · have hne : (a.key == k) = false := by
        rw [beq_eq_false_iff_ne]
        intro hk
        apply hnd.1
        rw [List.mem_map]
        exact ⟨t, hmem, htk.trans hk.symm⟩
      simp only [List.filter_cons, hne, Bool.false_eq_true, if_false]
      exact filterKeyNodup l hnd.2 k t hmem htk

theorem nodupKeysFilter (s : TabListState) (p : Elem → Bool) (hnd : keysNodup s) :
    ((s.children.filter p).map Elem.key).Nodup :=
  List.Nodup.sublist (List.Sublist.map Elem.key (List.filter_sublist s.children)) hnd

/-! ### `applySel` preservation facts -/

theorem applySel_key (k pk : Nat) (e : Elem) : (applySel k pk e).key = e.key := by
  unfold applySel
  split
  · split <;> simp [markSelected_key, resetElem_key]
  split
  · split <;> simp [showPanel_key, resetElem_key]
  · rfl

theorem applySel_role (k pk : Nat) (e : Elem) : (applySel k pk e).role = e.role := by
  unfold applySel
  split
  · split <;> simp [markSelected_role, resetElem_role]
  split
  · split <;> simp [showPanel_role, resetElem_role]
  · rfl

theorem applySel_idAttr (k pk : Nat) (e : Elem) : (applySel k pk e).idAttr = e.idAttr := by
  unfold applySel
  split
  · split <;> simp [markSelected_idAttr, resetElem_idAttr]
  split
  · split <;> simp [showPanel_idAttr, resetElem_idAttr]
  · rfl

theorem applySel_controls (k pk : Nat) (e : Elem) :
    (applySel k pk e).ariaControls = e.ariaControls := by
  unfold applySel
  split
  · split <;> simp [markSelected_controls, resetElem_controls]
  split
  · split <;> simp [showPanel_controls, resetElem_controls]
  · rfl

theorem isTab_applySel (k pk : Nat) (e : Elem) : isTab (applySel k pk e) = isTab e := by
  simp [isTab, applySel_role]

theorem isPanel_applySel (k pk : Nat) (e : Elem) : isPanel (applySel k pk e) = isPanel e := by
  simp [isPanel, applySel_role]

/-- On a tab, `applySel` marks exactly the key-`k` tab selected. -/
theorem isSelectedTab_applySel (k pk : Nat) (e : Elem) (he : isTab e = true) :
    isSelectedTab (applySel k pk e) = (e.key == k) := by
  unfold applySel
  rw [if_pos he]
  cases hk : (e.key == k) with
  | true =>
      simp only [if_true, eq_self_iff_true, if_pos]
      simp [isSelectedTab, markSelected_selected]
  | false =>
      simp only [Bool.false_eq_true, if_false]
      simp [isSelectedTab, resetElem_selected_of_tab e he]

/-- On a panel, `applySel` unhides exactly the key-`pk` panel. -/
theorem isVisiblePanel_applySel (k pk : Nat) (e : Elem) (he : isPanel e = true) :
    isVisiblePanel (applySel k pk e) = (e.key == pk) := by
  unfold applySel
  rw [if_neg (by simp [isPanel_not_isTab he]), if_pos he]
  cases hk : (e.key == pk) with
  | true =>
      simp only [if_true, eq_self_iff_true, if_pos]
      simp [isVisiblePanel, showPanel_hidden]
  | false =>
      simp only [Bool.false_eq_true, if_false]
      simp [isVisiblePanel, resetElem_hidden_of_panel e he]

/-! ### Characterization of a successful `_selectTab` -/

theorem getByKey_reset (s : TabListState) (k : Nat) (t : Elem)
    (hnd : keysNodup s) (ht : t ∈ s.children) (htk : t.key = k) :
    getByKey (reset s) k = some (resetElem t) := by
  unfold getByKey reset
  show (s.children.map resetElem).find? (fun e => e.key == k) = some (resetElem t)
  rw [List.find?_map]
  have hpred : ((fun e => e.key == k) ∘ resetElem) = (fun e => e.key == k) := by
    funext e; simp [Function.comp, resetElem_key]
  rw [hpred, ← htk, findKeyNodup s.children hnd t ht]
  rfl

theorem allPanels_reset (s : TabListState) :
    allPanels (reset s) = (allPanels s).map resetElem := by
  unfold allPanels reset
  show (s.children.map resetElem).filter isPanel = (s.children.filter isPanel).map resetElem
  rw [List.filter_map]
  have hpred : (isPanel ∘ resetElem) = isPanel := by
    funext e; simp [Function.comp, isPanel_resetElem]
  rw [hpred]

theorem allTabs_reset (s : TabListState) :
    allTabs (reset s) = (allTabs s).map resetElem := by
  unfold allTabs reset
  show (s.children.map resetElem).filter isTab = (s.children.filter isTab).map resetElem
  rw [List.filter_map]
  have hpred : (isTab ∘ resetElem) = isTab := by
    funext e; simp [Function.comp, isTab_resetElem]
  rw [hpred]

theorem panelForKey_reset (s : TabListState) (k : Nat) (t p : Elem) (cv : String)
    (hnd : keysNodup s) (ht : t ∈ s.children) (htk : t.key = k)
    (hc : t.ariaControls = some cv)
    (hp : (allPanels s).find? (fun q => q.idAttr == cv) = some p) :
    panelForKey (reset s) k = some (resetElem p) := by
  unfold panelForKey
  rw [getByKey_reset s k t hnd ht htk]
  show panelForTab (reset s) (resetElem t) = some (resetElem p)
  unfold panelForTab
  rw [resetElem_controls, hc]
  show (allPanels (reset s)).find? (fun q => q.idAttr == cv) = some (resetElem p)
  rw [allPanels_reset, List.find?_map]
  have hpred : ((fun q => q.idAttr == cv) ∘ resetElem) = (fun q => q.idAttr == cv) := by
    funext e; simp [Function.comp, resetElem_idAttr]
  rw [hpred, hp]
  rfl

theorem selectTab_eq_applySel (s : TabListState) (k : Nat) (t p : Elem) (cv : String)
    (hnd : keysNodup s) (ht : t ∈ s.children) (htTab : isTab t = true) (htk : t.key = k)
    (hc : t.ariaControls = some cv)
    (hp : (allPanels s).find? (fun q => q.idAttr == cv) = some p) :
    selectTab s k = Except.ok { s with children := s.children.map (applySel k p.key) } := by
  have hpmem' := List.mem_of_find?_eq_some hp
  have hpmem : p ∈ s.children := (List.mem_filter.mp hpmem').1
  have hpPanel : isPanel p = true := (List.mem_filter.mp hpmem').2
  have hpk := panelForKey_reset s k t p cv hnd ht htk hc hp
  simp only [selectTab]
  rw [hpk]
  simp only [resetElem_key]
  unfold reset updKey
  simp only [List.map_map]
  congr 1
  congr 1
  apply List.map_congr_left
  intro e he
  simp only [Function.comp]
  by_cases hetab : isTab e = true
  · have hkeyp : (e.key == p.key) = false := by
      rw [beq_eq_false_iff_ne]
      intro hkeq
      have hep : e = p := keyInj s hnd he hpmem hkeq
      rw [hep] at hetab
      have hfalse := isTab_not_isPanel hetab
      rw [hfalse] at hpPanel
      exact Bool.false_ne_true hpPanel
    simp only [resetElem_key, hkeyp, Bool.false_eq_true, if_false]
    unfold applySel
    rw [if_pos hetab]
  · by_cases hepan : isPanel e = true
    · have hkeyk : (e.key == k) = false := by
        rw [beq_eq_false_iff_ne]
        intro hkeq
        have het : e = t := keyInj s hnd he ht (hkeq.trans htk.symm)
        rw [het] at hepan
        have hfalse := isPanel_not_isTab hepan
        rw [hfalse] at htTab
        exact Bool.false_ne_true htTab
      unfold applySel
      rw [if_neg hetab, if_pos hepan]
      by_cases hkp : (e.key == p.key) = true
      · simp only [resetElem_key, hkp, if_true, eq_self_iff_true, if_pos]
        simp only [showPanel_key, resetElem_key, hkeyk, Bool.false_eq_true, if_false]
      · have hkp' : (e.key == p.key) = false := by
          cases hb : (e.key == p.key) with
          | true => exact absurd hb hkp
          | false => rfl
        simp only [resetElem_key, hkp', Bool.false_eq_true, if_false]
        simp only [resetElem_key, hkeyk, Bool.false_eq_true, if_false]
    · have hre : resetElem e = e := by
        unfold resetElem
        rw [if_neg hetab, if_neg hepan]
      have hkeyp : (e.key == p.key) = false := by
        rw [beq_eq_false_iff_ne]
        intro hkeq
        have hep : e = p := keyInj s hnd he hpmem hkeq
        rw [hep] at hepan
        exact hepan hpPanel
      have hkeyk : (e.key == k) = false := by
        rw [beq_eq_false_iff_ne]
        intro hkeq
        have het : e = t := keyInj s hnd he ht (hkeq.trans htk.symm)
        rw [het] at hetab
        exact hetab htTab
      unfold applySel
      rw [if_neg hetab, if_neg hepan]
      rw [hre]
      simp only [hkeyp, Bool.false_eq_true, if_false, hkeyk]

theorem applySel_state_invariant (s : TabListState) (k : Nat) (t p : Elem) (cv : String)
    (hnd : keysNodup s) (ht : t ∈ s.children) (htTab : isTab t = true) (htk : t.key = k)
    (hc : t.ariaControls = some cv)
    (hp : (allPanels s).find? (fun q => q.idAttr == cv) = some p) :
    ariaInvariant { s with children := s.children.map (applySel k p.key) } = true ∧
    ((allTabs { s with children := s.children.map (applySel k p.key) }).find? isSelectedTab).map
      Elem.key = some k := by
  have htmem : t ∈ allTabs s := List.mem_filter.mpr ⟨ht, htTab⟩
  have hpmem' := List.mem_of_find?_eq_some hp
  have hpPanel : isPanel p = true := (List.mem_filter.mp hpmem').2
  have hTabs : allTabs { s with children := s.children.map (applySel k p.key) } =
      (allTabs s).map (applySel k p.key) := by
    show (s.children.map (applySel k p.key)).filter isTab =
      (s.children.filter isTab).map (applySel k p.key)
    rw [List.filter_map]
    have hpred : (isTab ∘ applySel k p.key) = isTab := by
      funext e; simp [Function.comp, isTab_applySel]
    rw [hpred]
  have hPanels : allPanels { s with children := s.children.map (applySel k p.key) } =
      (allPanels s).map (applySel k p.key) := by
    show (s.children.map (applySel k p.key)).filter isPanel =
      (s.children.filter isPanel).map (applySel k p.key)
    rw [List.filter_map]
    have hpred : (isPanel ∘ applySel k p.key) = isPanel := by
      funext e; simp [Function.comp, isPanel_applySel]
    rw [hpred]
  have hselfilter : ((allTabs s).map (applySel k p.key)).filter isSelectedTab =
      [applySel k p.key t] := by
    rw [List.filter_map]
    have hcong : (allTabs s).filter (isSelectedTab ∘ applySel k p.key) =
        (allTabs s).filter (fun e => e.key == k) := by
      apply List.filter_congr
      intro x hx
      have hxtab : isTab x = true := (List.mem_filter.mp hx).2
      simp [Function.comp, isSelectedTab_applySel k p.key x hxtab]
    rw [hcong, filterKeyNodup (allTabs s) (nodupKeysFilter s isTab hnd) k t htmem htk]
    rfl
  have hvisfilter : ((allPanels s).map (applySel k p.key)).filter isVisiblePanel =
      [applySel k p.key p] := by
    rw [List.filter_map]
    have hcong : (allPanels s).filter (isVisiblePanel ∘ applySel k p.key) =
        (allPanels s).filter (fun e => e.key == p.key) := by
      apply List.filter_congr
      intro x hx
      have hxpan : isPanel x = true := (List.mem_filter.mp hx).2
      simp [Function.comp, isVisiblePanel_applySel k p.key x hxpan]
    rw [hcong, filterKeyNodup (allPanels s) (nodupKeysFilter s isPanel hnd) p.key p hpmem' rfl]
    rfl
  have hfindsel : (allTabs { s with children := s.children.map (applySel k p.key) }).find?
      isSelectedTab = some (applySel k p.key t) := by
    rw [hTabs, List.find?_map]
    have hcong : (allTabs s).find? (isSelectedTab ∘ applySel k p.key) =
        (allTabs s).find? (fun e => e.key == k) :=
      findCongr (allTabs s) (fun x hx => by
        have hxtab : isTab x = true := (List.mem_filter.mp hx).2
        simp [Function.comp, isSelectedTab_applySel k p.key x hxtab])
    rw [hcong, ← htk, findKeyNodup (allTabs s) (nodupKeysFilter s isTab hnd) t htmem]
    rfl
  have hfindvis : (allPanels { s with children := s.children.map (applySel k p.key) }).find?
      isVisiblePanel = some (applySel k p.key p) := by
    rw [hPanels, List.find?_map]
    have hcong : (allPanels s).find? (isVisiblePanel ∘ applySel k p.key) =
        (allPanels s).find? (fun e => e.key == p.key) :=
      findCongr (allPanels s) (fun x hx => by
        have hxpan : isPanel x = true := (List.mem_filter.mp hx).2
        simp [Function.comp, isVisiblePanel_applySel k p.key x hxpan])
    rw [hcong, findKeyNodup (allPanels s) (nodupKeysFilter s isPanel hnd) p hpmem']
    rfl
  have hpft : panelForTab { s with children := s.children.map (applySel k p.key) }
      (applySel k p.key t) = some (applySel k p.key p) := by
    unfold panelForTab
    rw [applySel_controls, hc]
    show (allPanels { s with children := s.children.map (applySel k p.key) }).find?
      (fun q => q.idAttr == cv) = some (applySel k p.key p)
    rw [hPanels, List.find?_map]
    have hcong : (allPanels s).find? ((fun q => q.idAttr == cv) ∘ applySel k p.key) =
        (allPanels s).find? (fun q => q.idAttr == cv) :=
      findCongr (allPanels s) (fun x _ => by simp [Function.comp, applySel_idAttr])
    rw [hcong, hp]
    rfl
  have hcount1 : countSelected { s with children := s.children.map (applySel k p.key) } = 1 := by
    unfold countSelected
    rw [hTabs, hselfilter]
    rfl
  have hcount2 : countVisible { s with children := s.children.map (applySel k p.key) } = 1 := by
    unfold countVisible
    rw [hPanels, hvisfilter]
    rfl
  constructor
  · unfold ariaInvariant
    rw [hcount1, hcount2, hfindsel, hfindvis]
    simp only []
    rw [hpft]
    simp
  · rw [hfindsel]
    simp [applySel_key, htk]

/-- When the post-`reset` panel lookup fails, `_selectTab` throws with the
reset mutations already applied. -/
theorem selectTab_error_of_none (s : TabListState) (k : Nat)
    (h : panelForKey (reset s) k = none) : selectTab s k = Except.error (reset s) := by
  simp only [selectTab]
  rw [h]

theorem selectTab_ok_inv (s : TabListState) (k : Nat) (s2 : TabListState)
    (hnd : keysNodup s) (htk : isTabKey s k = true)
    (hok : selectTab s k = Except.ok s2) :
    ∃ t p cv, t ∈ s.children ∧ isTab t = true ∧ t.key = k ∧ t.ariaControls = some cv ∧
      (allPanels s).find? (fun q => q.idAttr == cv) = some p ∧
      s2 = { s with children := s.children.map (applySel k p.key) } := by
  obtain ⟨t, htmem, htkeq⟩ := List.any_eq_true.mp htk
  have ht : t ∈ s.children := (List.mem_filter.mp htmem).1
  have htTab : isTab t = true := (List.mem_filter.mp htmem).2
  have htk2 : t.key = k := by simpa using htkeq
  cases hc : t.ariaControls with
  | none =>
      have hpk : panelForKey (reset s) k = none := by
        unfold panelForKey
        rw [getByKey_reset s k t hnd ht htk2]
        show panelForTab (reset s) (resetElem t) = none
        unfold panelForTab
        rw [resetElem_controls, hc]
      rw [selectTab_error_of_none s k hpk] at hok
      exact Except.noConfusion hok
  | some cv =>
      cases hfp : (allPanels s).find? (fun q => q.idAttr == cv) with
      | none =>
          have hpk : panelForKey (reset s) k = none := by
            unfold panelForKey
            rw [getByKey_reset s k t hnd ht htk2]
            show panelForTab (reset s) (resetElem t) = none
            unfold panelForTab
            rw [resetElem_controls, hc]
            show (allPanels (reset s)).find? (fun q => q.idAttr == cv) = none
            rw [allPanels_reset, List.find?_map]
            have hpred : ((fun q => q.idAttr == cv) ∘ resetElem) = (fun q => q.idAttr == cv) := by
              funext e; simp [Function.comp, resetElem_idAttr]
            rw [hpred, hfp]
            rfl
          rw [selectTab_error_of_none s k hpk] at hok
          exact Except.noConfusion hok
      | some p =>
          rw [selectTab_eq_applySel s k t p cv hnd ht htTab htk2 hc hfp] at hok
          refine ⟨t, p, cv, ht, htTab, htk2, hc, hfp, ?_⟩
          exact (Except.ok.inj hok).symm

/-- Any `_selectTab` call on a tab that returns normally establishes the
exactly-one invariant, and the selected tab is the requested one. -/
theorem selectTab_ok_invariant (s : TabListState) (k : Nat) (s2 : TabListState)
    (hnd : keysNodup s) (htk : isTabKey s k = true)
    (hok : selectTab s k = Except.ok s2) :
    ariaInvariant s2 = true ∧ ((allTabs s2).find? isSelectedTab).map Elem.key = some k := by
  obtain ⟨t, p, cv, ht, htTab, htk2, hc, hp, hs2⟩ := selectTab_ok_inv s k s2 hnd htk hok
  rw [hs2]
  exact applySel_state_invariant s k t p cv hnd ht htTab htk2 hc hp

/-! ### Reordering and labelling preserve everything the invariant reads -/

theorem filterTab_reorder (c : List Elem) :
    (reorderChildren c).filter isTab = c.filter isTab := by
  unfold reorderChildren
  rw [List.filter_append, List.filter_append]
  have h1 : (c.filter (fun e => !(isTab e) && !(isPanel e))).filter isTab = [] := by
    rw [List.filter_eq_nil_iff]
    intro b hb htb
    have hpred := (List.mem_filter.mp hb).2
    rw [htb] at hpred
    simp at hpred
  have h2 : (c.filter isTab).filter isTab = c.filter isTab := by
    rw [List.filter_filter]
    apply List.filter_congr
    intro x _
    cases h : isTab x <;> simp [h]
  have h3 : (c.filter isPanel).filter isTab = [] := by
    rw [List.filter_eq_nil_iff]
    intro b hb htb
    have hpan := (List.mem_filter.mp hb).2
    rw [isTab_not_isPanel htb] at hpan
    exact Bool.false_ne_true hpan
  rw [h1, h2, h3, List.nil_append, List.append_nil]

theorem reorder_perm (c : List Elem) : (reorderChildren c).Perm c := by
  unfold reorderChildren
  have hO : c.filter (fun e => !(isTab e) && !(isPanel e)) =
      c.filter (fun e => !(isTab e || isPanel e)) := by
    apply List.filter_congr
    intro x _
    cases isTab x <;> cases isPanel x <;> rfl
  have hA : (c.filter (fun e => isTab e || isPanel e)).filter isTab = c.filter isTab := by
    rw [List.filter_filter]
    apply List.filter_congr
    intro x _
    cases h : isTab x <;> simp [h]
  have hB : (c.filter (fun e => isTab e || isPanel e)).filter (fun x => !(isTab x)) =
      c.filter isPanel := by
    rw [List.filter_filter]
    apply List.filter_congr
    intro x _
    cases h : isTab x
    · simp
    · simp [isTab_not_isPanel h]
  have hperm1 := List.filter_append_perm isTab (c.filter (fun e => isTab e || isPanel e))
  rw [hA, hB] at hperm1
  have hperm2 := List.filter_append_perm (fun e => isTab e || isPanel e) c
  rw [hO, List.append_assoc]
  have step1 : (c.filter (fun e => !(isTab e || isPanel e)) ++
        (c.filter isTab ++ c.filter isPanel)).Perm
      (c.filter (fun e => !(isTab e || isPanel e)) ++
        c.filter (fun e => isTab e || isPanel e)) :=
    List.Perm.append_left _ hperm1
  have step2 : (c.filter (fun e => !(isTab e || isPanel e)) ++
        c.filter (fun e => isTab e || isPanel e)).Perm
      (c.filter (fun e => isTab e || isPanel e) ++
        c.filter (fun e => !(isTab e || isPanel e))) :=
    List.perm_append_comm
  exact step1.trans (step2.trans hperm2)

theorem labelStep_noLbl (s s2 : TabListState) (tab : Elem)
    (h : labelStep s tab = Except.ok s2) :
    s2.children.map noLbl = s.children.map noLbl := by
  unfold labelStep at h
  by_cases hid : (tab.idAttr == "") = true
  · rw [if_pos hid] at h
    exact Except.noConfusion h
  · rw [if_neg hid] at h
    cases hfp : panelForTab s tab with
    | none =>
        rw [hfp] at h
        exact Except.noConfusion h
    | some p =>
        rw [hfp] at h
        rw [← Except.ok.inj h]
        show (updKey s.children p.key _).map noLbl = s.children.map noLbl
        unfold updKey
        rw [List.map_map]
        apply List.map_congr_left
        intro e _
        simp only [Function.comp]
        by_cases hk : (e.key == p.key) = true
        · rw [if_pos hk]
          rfl
        · rw [if_neg hk]

theorem labelAll_noLbl : ∀ (ts : List Elem) (s s2 : TabListState),
    labelAll s ts = Except.ok s2 → s2.children.map noLbl = s.children.map noLbl
  | [], s, s2, h => by
      unfold labelAll at h
      rw [← Except.ok.inj h]
  | tb :: rest, s, s2, h => by
      unfold labelAll at h
      cases hstep : labelStep s tb with
      | error e =>
          rw [hstep] at h
          exact Except.noConfusion h
      | ok smid =>
          rw [hstep] at h
          have h1 := labelAll_noLbl rest smid s2 h
          rw [h1, labelStep_noLbl s smid tb hstep]

theorem keysNodup_of_noLbl_eq (a b : TabListState)
    (h : a.children.map noLbl = b.children.map noLbl) (hnd : keysNodup b) : keysNodup a := by
  unfold keysNodup at hnd ⊢
  have hcomp : Elem.key ∘ noLbl = Elem.key := funext (fun _ => rfl)
  have h2 : a.children.map Elem.key = b.children.map Elem.key := by
    have h3 := congrArg (List.map Elem.key) h
    rw [List.map_map, List.map_map, hcomp] at h3
    exact h3
  rw [h2]
  exact hnd

theorem allTabs_noLbl_eq (a b : TabListState)
    (h : a.children.map noLbl = b.children.map noLbl) :
    (allTabs a).map noLbl = (allTabs b).map noLbl := by
  have hcomp : isTab ∘ noLbl = isTab := funext (fun _ => rfl)
  have ha : (allTabs a).map noLbl = (a.children.map noLbl).filter isTab := by
    show (a.children.filter isTab).map noLbl = (a.children.map noLbl).filter isTab
    rw [List.filter_map, hcomp]
  have hb : (allTabs b).map noLbl = (b.children.map noLbl).filter isTab := by
    show (b.children.filter isTab).map noLbl = (b.children.map noLbl).filter isTab
    rw [List.filter_map, hcomp]
  rw [ha, hb, h]

theorem mem_of_noLbl_map_eq (l1 l2 : List Elem) (h : l1.map noLbl = l2.map noLbl)
    (t : Elem) (ht : t ∈ l2) : ∃ u, u ∈ l1 ∧ noLbl u = noLbl t := by
  have hmem : noLbl t ∈ l1.map noLbl := by
    rw [h]
    exact List.mem_map_of_mem noLbl ht
  exact List.mem_map.mp hmem

/-! ### `connectedCallback` control flow -/

theorem connectedCallback_nil (s : TabListState) (htabs : allTabs s = []) :
    connectedCallback s = Except.ok { s with listeners := true, roleAttr := some "tablist" } := by
  simp only [connectedCallback]
  rw [show allTabs { s with listeners := true, roleAttr := some "tablist" } = [] from htabs]

theorem connectedCallback_cons (s : TabListState) (t0 : Elem) (rest : List Elem)
    (htabs : allTabs s = t0 :: rest) :
    connectedCallback s = connectedFinish { s with listeners := true, roleAttr := some "tablist", children := reorderChildren s.children } (t0 :: rest) t0 := by
  simp only [connectedCallback]
  rw [show allTabs { s with listeners := true, roleAttr := some "tablist" } = t0 :: rest from htabs]

theorem connectedFinish_ok_inv (s1 : TabListState) (tabs : List Elem) (t0 : Elem)
    (sf : TabListState) (hok : connectedFinish s1 tabs t0 = Except.ok sf) :
    ∃ s2, labelAll s1 tabs = Except.ok s2 ∧
      selectTab s2 ((tabs.find? isSelectedTab).getD t0).key = Except.ok sf := by
  unfold connectedFinish at hok
  cases hl : labelAll s1 tabs with
  | error e =>
      rw [hl] at hok
      exact Except.noConfusion hok
  | ok s2 =>
      rw [hl] at hok
      exact ⟨s2, rfl, hok⟩

/-- A `connectedCallback` that returns normally on a container with at
least one tab establishes the exactly-one invariant, and the selected tab
is the first pre-marked tab (or the first tab). -/
theorem connectedCallback_ok_selected (s sf : TabListState) (t0 : Elem) (rest : List Elem)
    (hnd : keysNodup s) (htabs : allTabs s = t0 :: rest)
    (hok : connectedCallback s = Except.ok sf) :
    ariaInvariant sf = true ∧
    ((allTabs sf).find? isSelectedTab).map Elem.key =
      some (((allTabs s).find? isSelectedTab).getD t0).key := by
  rw [connectedCallback_cons s t0 rest htabs] at hok
  obtain ⟨s2, hl, hsel⟩ := connectedFinish_ok_inv _ _ _ _ hok
  have hnd1 : keysNodup { s with listeners := true, roleAttr := some "tablist", children := reorderChildren s.children } := by
    show ((reorderChildren s.children).map Elem.key).Nodup
    exact (List.Perm.nodup_iff (List.Perm.map Elem.key (reorder_perm s.children))).mpr hnd
  have hrel : s2.children.map noLbl =
      ({ s with listeners := true, roleAttr := some "tablist", children := reorderChildren s.children } : TabListState).children.map noLbl :=
    labelAll_noLbl (t0 :: rest) _ s2 hl
  have hnd2 : keysNodup s2 := keysNodup_of_noLbl_eq s2 _ hrel hnd1
  have hselmem : ((allTabs s).find? isSelectedTab).getD t0 ∈ allTabs s := by
    cases hf : (allTabs s).find? isSelectedTab with
    | some u => simpa using List.mem_of_find?_eq_some hf
    | none =>
        rw [htabs]
        exact List.mem_cons_self t0 rest
  have htabs1 : allTabs { s with listeners := true, roleAttr := some "tablist", children := reorderChildren s.children } = allTabs s := by
    show (reorderChildren s.children).filter isTab = s.children.filter isTab
    exact filterTab_reorder s.children
  have hmap : (allTabs s2).map noLbl = (allTabs s).map noLbl := by
    have h1 := allTabs_noLbl_eq s2 _ hrel
    rw [htabs1] at h1
    exact h1
  obtain ⟨u, hu2, hunl⟩ := mem_of_noLbl_map_eq (allTabs s2) (allTabs s) hmap
    (((allTabs s).find? isSelectedTab).getD t0) hselmem
  have hukey0 := congrArg Elem.key hunl
  have hukey : u.key = (((allTabs s).find? isSelectedTab).getD t0).key := hukey0
  have htk2 : isTabKey s2 (((allTabs s).find? isSelectedTab).getD t0).key = true :=
    List.any_eq_true.mpr ⟨u, hu2, by simp [hukey]⟩
  rw [← htabs] at hsel
  exact selectTab_ok_invariant s2 _ sf hnd2 htk2 hsel

/-! ### Where the keyboard transitions pick their tab from -/

theorem jsIndex_mem (l : List Elem) (i : Int) (e : Elem) (h : jsIndex l i = some e) : e ∈ l := by
  unfold jsIndex at h
  by_cases h0 : 0 ≤ i
  · rw [if_pos h0] at h
    exact List.getElem?_mem h
  · rw [if_neg h0] at h
    exact Option.noConfusion h

theorem prevTab_mem (s : TabListState) (e : Elem) (h : prevTab s = some e) : e ∈ allTabs s := by
  simp only [prevTab] at h
  exact jsIndex_mem _ _ _ h

theorem nextTab_mem (s : TabListState) (e : Elem) (h : nextTab s = some e) : e ∈ allTabs s := by
  simp only [nextTab] at h
  exact jsIndex_mem _ _ _ h

theorem selectTabOpt_ok_invariant (s : TabListState) (o : Option Elem) (sf : TabListState)
    (hnd : keysNodup s) (hmem : ∀ e, o = some e → e ∈ allTabs s)
    (hok : selectTabOpt s o = Except.ok sf) : ariaInvariant sf = true := by
  cases o with
  | none => exact Except.noConfusion hok
  | some e =>
      have he : e ∈ allTabs s := hmem e rfl
      have htk : isTabKey s e.key = true := List.any_eq_true.mpr ⟨e, he, by simp⟩
      exact (selectTab_ok_invariant s e.key sf hnd htk hok).1

/-- JavaScript's `%` on two nonnegative operands is `Nat.mod`. -/
theorem tmod_coe (m n : Nat) : Int.tmod (m : Int) (n : Int) = ((m % n : Nat) : Int) := rfl

/-- **C1.** For every container with a non-empty tab list in which every
tab's `aria-controls` names an existing panel id, after any completed
transition (selectExplicit, selectPrevious, selectNext, selectFirst,
selectLast, or the initial selection at attach) exactly one tab has
`aria-selected="true"`, exactly one panel has `aria-hidden="false"`, and
that panel is the one whose id equals the selected tab's `aria-controls`
value (`ariaInvariant`). -/
theorem selection_invariant_after_transitions (s : TabListState)
    (hnd : keysNodup s) (hne : allTabs s ≠ []) (_hwp : wellPaired s = true) :
    (∀ k sf, isTabKey s k = true → selectExplicit s k = Except.ok sf →
      ariaInvariant sf = true) ∧
    (∀ sf, selectPrevious s = Except.ok sf → ariaInvariant sf = true) ∧
    (∀ sf, selectNext s = Except.ok sf → ariaInvariant sf = true) ∧
    (∀ sf, selectFirst s = Except.ok sf → ariaInvariant sf = true) ∧
    (∀ sf, selectLast s = Except.ok sf → ariaInvariant sf = true) ∧
    (∀ sf, connectedCallback s = Except.ok sf → ariaInvariant sf = true) := by
  refine ⟨?_, ?_, ?_, ?_, ?_, ?_⟩
  · intro k sf htk hok
    exact (selectTab_ok_invariant s k sf hnd htk hok).1
  · intro sf hok
    exact selectTabOpt_ok_invariant s (prevTab s) sf hnd (fun e he => prevTab_mem s e he) hok
  · intro sf hok
    exact selectTabOpt_ok_invariant s (nextTab s) sf hnd (fun e he => nextTab_mem s e he) hok
  · intro sf hok
    exact selectTabOpt_ok_invariant s (allTabs s)[0]? sf hnd
      (fun e he => List.getElem?_mem he) hok
  · intro sf hok
    exact selectTabOpt_ok_invariant s (allTabs s)[(allTabs s).length - 1]? sf hnd
      (fun e he => List.getElem?_mem he) hok
  · intro sf hok
    obtain ⟨t0, rest, htabs⟩ := List.exists_cons_of_ne_nil hne
    exact (connectedCallback_ok_selected s sf t0 rest hnd htabs hok).1

/-- Witness for C1 on a concrete two-tab container: the hypotheses hold
and the invariant is established by an actually-completed transition. -/
theorem selection_invariant_after_transitions_witness :
    keysNodup wC1 ∧ allTabs wC1 ≠ [] ∧ wellPaired wC1 = true ∧
    selectNext wC1 = Except.ok wC1next ∧ ariaInvariant wC1next = true :=
  ⟨by decide, by decide, by decide, by decide,
   (selection_invariant_after_transitions wC1 (by decide) (by decide)
     (by decide)).2.2.1 wC1next (by decide)⟩

/-- **C3.** For every container with n ≥ 1 tabs: when the currently
selected tab is at index 0, `_prevTab` yields the tab at index n−1 (the
last tab) and `selectPrevious` selects it; when the currently selected tab
is at index n−1, `_nextTab` yields the tab at index 0 and `selectNext`
selects it (wrap-around modulo the tab count). -/
theorem wraparound_navigation (s : TabListState) (hne : allTabs s ≠ []) :
    (findIndexJs isSelectedTab (allTabs s) = 0 →
      prevTab s = (allTabs s).getLast? ∧
      selectPrevious s = selectTabOpt s (allTabs s).getLast?) ∧
    (findIndexJs isSelectedTab (allTabs s) = ((allTabs s).length : Int) - 1 →
      nextTab s = (allTabs s)[0]? ∧
      selectNext s = selectTabOpt s (allTabs s)[0]?) := by
  have hlen : 0 < (allTabs s).length := List.length_pos.mpr hne
  constructor
  · intro h0
    have hprev : prevTab s = (allTabs s).getLast? := by
      simp only [prevTab]
      rw [h0]
      have harith : (0 : Int) - 1 + ((allTabs s).length : Int) =
          (((allTabs s).length - 1 : Nat) : Int) := by
        push_cast [hlen]
        omega
      rw [harith, tmod_coe,
        Nat.mod_eq_of_lt (show (allTabs s).length - 1 < (allTabs s).length by omega)]
      unfold jsIndex
      rw [if_pos (Int.ofNat_nonneg _), Int.toNat_ofNat, List.getLast?_eq_getElem?]
    refine ⟨hprev, ?_⟩
    show selectTabOpt s (prevTab s) = selectTabOpt s (allTabs s).getLast?
    rw [hprev]
  · intro h1
    have hnext : nextTab s = (allTabs s)[0]? := by
      simp only [nextTab]
      rw [h1]
      have harith : ((allTabs s).length : Int) - 1 + 1 = (((allTabs s).length : Nat) : Int) := by
        omega
      rw [harith, tmod_coe, Nat.mod_self]
      unfold jsIndex
      rw [if_pos (Int.ofNat_nonneg _), Int.toNat_ofNat]
    refine ⟨hnext, ?_⟩
    show selectTabOpt s (nextTab s) = selectTabOpt s (allTabs s)[0]?
    rw [hnext]

/-- Witness for C3 on a concrete three-tab container whose first tab is
selected. -/
theorem wraparound_navigation_witness :
    allTabs wC3 ≠ [] ∧
    (findIndexJs isSelectedTab (allTabs wC3) = 0 → prevTab wC3 = (allTabs wC3).getLast? ∧
      selectPrevious wC3 = selectTabOpt wC3 (allTabs wC3).getLast?) :=
  ⟨by decide, (wraparound_navigation wC3 (by decide)).1⟩

/-- **C2 counterexample.** Explicitly selecting a tab whose
`aria-controls` is `"missing-id"` does raise the error, but the attributes
are NOT left as they were: the `reset` that `_selectTab` runs first has
already deselected the tab and hidden the panel when the throw happens. -/
theorem missing_panel_not_atomic :
    selectTab cexC2 0 = Except.error (reset cexC2) ∧ reset cexC2 ≠ cexC2 := by
  constructor
  · decide
  · decide

/-- **C2 amended.** For every tab whose `aria-controls` matches no panel
id, invoking selection on that tab raises a fatal error, and the state at
the throw is exactly `reset` of the prior state: every tab deselected and
unfocusable, every panel hidden, everything else unchanged
(reset-then-fail, not atomic failure). -/
theorem missing_panel_reset_then_fail (s : TabListState) (k : Nat) (t : Elem)
    (hnd : keysNodup s) (ht : t ∈ s.children) (htk : t.key = k)
    (hmiss : panelForTab s t = none) :
    selectTab s k = Except.error (reset s) := by
  apply selectTab_error_of_none
  unfold panelForKey
  rw [getByKey_reset s k t hnd ht htk]
  show panelForTab (reset s) (resetElem t) = none
  cases hc : t.ariaControls with
  | none =>
      unfold panelForTab
      rw [resetElem_controls, hc]
  | some cv =>
      have hmiss2 : (allPanels s).find? (fun q => q.idAttr == cv) = none := by
        have h3 : panelForTab s t = (allPanels s).find? (fun q => q.idAttr == cv) := by
          unfold panelForTab
          rw [hc]
        rw [← h3]
        exact hmiss
      unfold panelForTab
      rw [resetElem_controls, hc]
      show (allPanels (reset s)).find? (fun q => q.idAttr == cv) = none
      rw [allPanels_reset, List.find?_map]
      have hpred : ((fun q => q.idAttr == cv) ∘ resetElem) = (fun q => q.idAttr == cv) := by
        funext e; simp [Function.comp, resetElem_idAttr]
      rw [hpred, hmiss2]
      rfl

/-- Witness for the amended C2 on a concrete dangling tab. -/
theorem missing_panel_reset_then_fail_witness :
    (keysNodup wC2 ∧ wC2tab ∈ wC2.children ∧ wC2tab.key = 4 ∧
      panelForTab wC2 wC2tab = none) ∧
    selectTab wC2 4 = Except.error (reset wC2) :=
  ⟨⟨by decide, by decide, by decide, by decide⟩,
   missing_panel_reset_then_fail wC2 4 wC2tab (by decide) (by decide) (by decide) (by decide)⟩

/-- **C4 (code bug).** A container whose only tab lacks an `id` does not
get a non-fatal diagnostic: the `console.warn` call's template string
reads the undefined variable `panelId`, so attach aborts with an exception
at the labelling step — after listener registration, role assignment and
reordering, but before any `aria-labelledby`, initial selection or
panel hiding is applied. -/
theorem missing_tab_id_aborts_attach :
    connectedCallback exC4 = Except.error { exC4 with listeners := true, roleAttr := some "tablist", children := reorderChildren exC4.children } := by
  decide

/-- **C5 (code bug).** The click guard is
`!event.target.getAttribute('role', 'tab')` — truthiness of the `role`
attribute, not equality with `"tab"` — so a click whose target is the
panel (role `"tabpanel"`) is not ignored: it invokes selection on the
panel, which resets every tab and panel (a state change) and then
throws. -/
theorem click_on_panel_not_ignored :
    onClick exC5 { targetKey := 1, targetRole := some "tabpanel" } =
      Except.error (reset exC5) ∧ reset exC5 ≠ exC5 := by
  constructor
  · decide
  · decide

/-- **C6 (code bug).** `_onKeyDown` calls `event.preventDefault()`
unconditionally as its first statement: an unrecognized key (`A`,
keyCode 65) targeting a tab and an arrow key targeting a panel are both
no-ops on the state, yet both still get default browser handling
suppressed instead of propagating normally. -/
theorem keydown_always_prevents_default :
    (onKeyDown exC6 { keyCode := 65, targetKey := 0, targetRole := some "tab", altKey := false }).defaultPrevented = true ∧
    (onKeyDown exC6 { keyCode := 65, targetKey := 0, targetRole := some "tab", altKey := false }).result = Except.ok exC6 ∧
    (onKeyDown exC6 { keyCode := 37, targetKey := 1, targetRole := some "tabpanel", altKey := false }).defaultPrevented = true ∧
    (onKeyDown exC6 { keyCode := 37, targetKey := 1, targetRole := some "tabpanel", altKey := false }).result = Except.ok exC6 := by
  refine ⟨by decide, by decide, by decide, by decide⟩

/-- **C7 counterexample.** On a container with zero tabs the keydown and
click listeners ARE attached (registration precedes the tab check), so
"no listeners beyond the role assignment are attached" fails. -/
theorem empty_tabs_listeners_attached :
    connectedCallback cexC7 = Except.ok { cexC7 with listeners := true, roleAttr := some "tablist" } ∧
    ({ cexC7 with listeners := true, roleAttr := some "tablist" } : TabListState).listeners = true ∧
    cexC7.listeners = false := by
  refine ⟨by decide, by decide, by decide⟩

/-- **C7 amended.** For every container with zero tabs, attach-time setup
stops early after registering the two listeners and assigning
`role=tablist`: the children are untouched (no reorder, no labelling, no
tab selected, no panel hidden state changed) and the result is a normal
return — the empty container is a valid inert state, not an error. -/
theorem empty_tabs_inert (s : TabListState) (htabs : allTabs s = []) :
    connectedCallback s = Except.ok { s with listeners := true, roleAttr := some "tablist" } :=
  connectedCallback_nil s htabs

/-- Witness for the amended C7. -/
theorem empty_tabs_inert_witness :
    allTabs cexC7 = [] ∧
    connectedCallback cexC7 =
      Except.ok { cexC7 with listeners := true, roleAttr := some "tablist" } :=
  ⟨by decide, empty_tabs_inert cexC7 (by decide)⟩

/-- **C8.** For every container with a non-empty tab list whose attach
completes, the tab selected by the attach-time initial selection is the
first tab in document order already carrying `aria-selected="true"` in
the host markup, or, if no tab is so marked, the first tab overall
(`initialSelectedTab`). -/
theorem initial_selection_first_marked (s sf : TabListState)
    (hnd : keysNodup s) (hne : allTabs s ≠ [])
    (hok : connectedCallback s = Except.ok sf) :
    ∃ t, initialSelectedTab (allTabs s) = some t ∧
      ((allTabs sf).find? isSelectedTab).map Elem.key = some t.key := by
  obtain ⟨t0, rest, htabs⟩ := List.exists_cons_of_ne_nil hne
  refine ⟨((allTabs s).find? isSelectedTab).getD t0, ?_, ?_⟩
  · unfold initialSelectedTab
    cases hf : (allTabs s).find? isSelectedTab with
    | some u => rfl
    | none =>
        rw [htabs]
        simp
  · exact (connectedCallback_ok_selected s sf t0 rest hnd htabs hok).2

/-- Witness for C8: interleaved markup whose second tab is pre-marked. -/
theorem initial_selection_first_marked_witness :
    keysNodup wC8 ∧ allTabs wC8 ≠ [] ∧ connectedCallback wC8 = Except.ok wC8res ∧
    (∃ t, initialSelectedTab (allTabs wC8) = some t ∧
      ((allTabs wC8res).find? isSelectedTab).map Elem.key = some t.key) :=
  ⟨by decide, by decide, by decide,
   initial_selection_first_marked wC8 wC8res (by decide) (by decide) (by decide)⟩

/-- `find?` is permutation-invariant when at most one element satisfies
the predicate. -/
theorem find?_perm_of_unique (l l2 : List Elem) (p : Elem → Bool) (hperm : l.Perm l2)
    (huniq : ∀ a, a ∈ l → ∀ b, b ∈ l → p a = true → p b = true → a = b) :
    l.find? p = l2.find? p := by
  cases h1 : l.find? p with
  | none =>
      rw [List.find?_eq_none] at h1
      symm
      rw [List.find?_eq_none]
      intro x hx
      exact h1 x (hperm.mem_iff.mpr hx)
  | some a =>
      have hpa := List.find?_some h1
      have hamem := List.mem_of_find?_eq_some h1
      cases h2 : l2.find? p with
      | none =>
          rw [List.find?_eq_none] at h2
          exact absurd hpa (h2 a (hperm.mem_iff.mp hamem))
      | some b =>
          have hpb := List.find?_some h2
          have hbmem := List.mem_of_find?_eq_some h2
          rw [huniq a hamem b (hperm.mem_iff.mpr hbmem) hpa hpb]

/-- **C9 counterexample.** Two panels sharing the id `"dup"`: transposing
them is a permutation that changes neither any tab's `aria-controls` nor
any panel's id, yet the pairing lookup resolves a different panel element
for the same tab. -/
theorem panel_lookup_order_dependent :
    (allPanels ex9a).Perm (allPanels ex9b) ∧ allTabs ex9a = allTabs ex9b ∧
    ex9t.ariaControls = some "dup" ∧
    panelForTab ex9a ex9t ≠ panelForTab ex9b ex9t := by
  refine ⟨by decide, by decide, by decide, by decide⟩

/-- **C9 amended.** Provided no two panels share an id, for every tab and
every permutation of the panels' document order that leaves each tab's
`aria-controls` value and each panel's id unchanged, the panel resolved
for that tab by the pairing lookup is the same panel. -/
theorem panel_lookup_order_independent (s s2 : TabListState) (t : Elem)
    (hids : ((allPanels s).map Elem.idAttr).Nodup)
    (hperm : (allPanels s).Perm (allPanels s2)) :
    panelForTab s t = panelForTab s2 t := by
  unfold panelForTab
  cases hc : t.ariaControls with
  | none => rfl
  | some cv =>
      apply find?_perm_of_unique _ _ _ hperm
      intro a ha b hb hpa hpb
      have ha2 : a.idAttr = cv := by simpa using hpa
      have hb2 : b.idAttr = cv := by simpa using hpb
      exact List.inj_on_of_nodup_map hids ha hb (ha2.trans hb2.symm)

/-- Witness for the amended C9: distinct-id panels, transposed. -/
theorem panel_lookup_order_independent_witness :
    ((allPanels wC9a).map Elem.idAttr).Nodup ∧ (allPanels wC9a).Perm (allPanels wC9b) ∧
    panelForTab wC9a wC9t = panelForTab wC9b wC9t :=
  ⟨by decide, by decide,
   panel_lookup_order_independent wC9a wC9b wC9t (by decide) (by decide)⟩

/-! ### Idempotence of selection -/

theorem resetElem_tab (x : Elem) (h : isTab x = true) :
    resetElem x = { x with tabIndex := -1, ariaSelected := some "false" } := by
  unfold resetElem
  rw [if_pos h]

theorem resetElem_panel (x : Elem) (h1 : isTab x = false) (h2 : isPanel x = true) :
    resetElem x = { x with ariaHidden := some "true" } := by
  unfold resetElem
  rw [if_neg (by simp [h1]), if_pos h2]

theorem resetElem_other (x : Elem) (h1 : isTab x = false) (h2 : isPanel x = false) :
    resetElem x = x := by
  unfold resetElem
  rw [if_neg (by simp [h1]), if_neg (by simp [h2])]

/-- `reset` wipes out whatever a previous apply-selection wrote. -/
theorem resetElem_applySel (k pk : Nat) (e : Elem) :
    resetElem (applySel k pk e) = resetElem e := by
  by_cases h1 : isTab e = true
  · unfold applySel
    rw [if_pos h1]
    by_cases hk : (e.key == k) = true
    · rw [if_pos hk, resetElem_tab e h1]
      rw [resetElem_tab _ (by simp [isTab, markSelected_role, resetElem_role]; simpa [isTab] using h1)]
      rfl
    · rw [if_neg hk, resetElem_tab e h1]
      rw [resetElem_tab _ (by simp [isTab, resetElem_role]; simpa [isTab] using h1)]
  · have h1f : isTab e = false := by
      cases hb : isTab e with
      | true => exact absurd hb h1
      | false => rfl
    by_cases h2 : isPanel e = true
    · unfold applySel
      rw [if_neg h1, if_pos h2]
      by_cases hk : (e.key == pk) = true
      · rw [if_pos hk, resetElem_panel e h1f h2]
        rw [resetElem_panel _ (by simp [isTab, showPanel_role, resetElem_role]; simpa [isTab] using h1f)
          (by simp [isPanel, showPanel_role, resetElem_role]; simpa [isPanel] using h2)]
        rfl
      · rw [if_neg hk, resetElem_panel e h1f h2]
        rw [resetElem_panel _ (by simp [isTab, resetElem_role]; simpa [isTab] using h1f)
          (by simp [isPanel, resetElem_role]; simpa [isPanel] using h2)]
    · have h2f : isPanel e = false := by
        cases hb : isPanel e with
        | true => exact absurd hb h2
        | false => rfl
      unfold applySel
      rw [if_neg h1, if_neg h2]

/-- Selecting again after a successful selection resets to the same
intermediate state. -/
theorem reset_applySel_state (s : TabListState) (k pk : Nat) :
    reset { s with children := s.children.map (applySel k pk) } = reset s := by
  unfold reset
  congr 1
  show (s.children.map (applySel k pk)).map resetElem = s.children.map resetElem
  rw [List.map_map]
  apply List.map_congr_left
  intro e _
  exact resetElem_applySel k pk e

/-- `_selectTab` only reads its receiver through `reset`. -/
theorem selectTab_eq_of_reset_eq (a b : TabListState) (k : Nat) (h : reset a = reset b) :
    selectTab a k = selectTab b k := by
  simp only [selectTab]
  rw [h]

/-- **C10.** Selecting a tab is idempotent: if selecting the tab with key
`k` succeeds and produces state `sf`, selecting the same tab again from
`sf` succeeds and produces exactly `sf` — the same `aria-selected`,
`aria-hidden` and `tabIndex` on every tab and panel as after the first
invocation. -/
theorem selection_idempotent (s sf : TabListState) (k : Nat)
    (hnd : keysNodup s) (htk : isTabKey s k = true)
    (hok : selectTab s k = Except.ok sf) :
    selectTab sf k = Except.ok sf := by
  obtain ⟨t, p, cv, ht, htTab, htk2, hc, hp, hsf⟩ := selectTab_ok_inv s k sf hnd htk hok
  have hreset : reset sf = reset s := by
    rw [hsf]
    exact reset_applySel_state s k p.key
  rw [selectTab_eq_of_reset_eq sf s k hreset]
  exact hok

/-- Witness for C10: selecting tab 1 of `wC10` twice. -/
theorem selection_idempotent_witness :
    keysNodup wC10 ∧ isTabKey wC10 1 = true ∧ selectTab wC10 1 = Except.ok wC10res ∧
    selectTab wC10res 1 = Except.ok wC10res :=
  ⟨by decide, by decide, by decide,
   selection_idempotent wC10 wC10res 1 (by decide) (by decide) (by decide)⟩
